import Mathlib

/-!
Shallow embedding of the NetBox manufacturer reconciliation logic of the
`yannkeedelta/ansible_netbox_collection` repository.

The repository contains two divergent implementations of the handler class:
  * `src/plugins/module_utils/dcim_manufacturers.py` (embedded below as
    namespace `DcimV1`) — the variant imported by the Ansible module
    `src/plugins/modules/dcim_manufacturers.py`, hence the executed code;
  * `src/plugins/module_utils/DcimManufacturers.py` (embedded as namespace
    `DcimV2`) — a stricter variant (slug normalization, explicit-lookup
    failure) that no module imports.

The remote NetBox API (pynetbox) is an external collaborator; it is modelled
as a record of response functions (`Api`).  Machine-level aspects that the
claims do not touch (HTTP transport, pagination) are outside the model.
Strings are Lean `String`s; tag identifiers are `Nat`.
-/

namespace NetboxSpec

/-- Requested reconciliation stage, the module's `state` parameter
(`merged` / `override` / `absent`). -/
inductive Stage where
  | merged
  | override
  | absent
  deriving DecidableEq, Repr

/-- A remote manufacturer record as returned by the collaborator
(`ExistingRecord` in the spec): identity plus the four managed fields.
Tags are stored as resolved identifiers. -/
structure Rec where
  id : Nat
  name : String
  slug : String
  description : String
  tags : List Nat
  deriving DecidableEq, Repr

/-- The caller-supplied `lookup` mapping, restricted to the managed keys
`name`, `slug`, `description`, `tags`.  A `none` field models an absent key. -/
structure LookupMap where
  name : Option String
  slug : Option String
  description : Option String
  tags : Option (List String)
  deriving DecidableEq, Repr

/-- Raw desired-state input (`ManufacturerInput`): one element of the
module's `manufacturers` list.  `name` is required; the rest are optional
keys of the Python dict. -/
structure InputData where
  name : String
  slug : Option String
  description : Option String
  tags : Option (List String)
  lookup : Option LookupMap
  deriving DecidableEq, Repr

/-- Canonical desired-state record (`Payload`).  A `none` field models a key
absent from the Python payload dict. -/
structure Payload where
  name : String
  slug : Option String
  description : Option String
  tags : Option (List Nat)
  deriving DecidableEq, Repr

/-- Field-level change set (`Delta`): for each managed field, `some v` means
the key is present in the `changes` dict with new value `v`. -/
structure Delta where
  name : Option String
  slug : Option String
  description : Option String
  tags : Option (List Nat)
  deriving DecidableEq, Repr

/-- Python dict truthiness of a `Delta` (`if updates:`). -/
def Delta.nonempty (d : Delta) : Bool :=
  d.name.isSome || d.slug.isSome || d.description.isSome || d.tags.isSome

/-- Key set of a `Delta`, for comparing which fields a run reports. -/
def Delta.keys (d : Delta) : List String :=
  (if d.name.isSome then ["name"] else []) ++
  (if d.slug.isSome then ["slug"] else []) ++
  (if d.description.isSome then ["description"] else []) ++
  (if d.tags.isSome then ["tags"] else [])

/-- Value of the `manufacturer` key of a result dict: either
`record.serialize()` or the literal empty dict `{}` used on update failure. -/
inductive SerializedRec where
  | emptyDict
  | record (r : Rec)
  deriving DecidableEq, Repr

/-- Result dict of one operation (`Outcome`).  Absent keys are modelled by
the defaults (`changed` defaults to false, matching `result.get("changed",
False)` in the module; `failed` likewise). -/
structure Outcome where
  changed : Bool := false
  failed : Bool := false
  msg : String := ""
  manufacturer : Option SerializedRec := none
  updates : Option Delta := none
  details : Option String := none
  deriving DecidableEq, Repr

/-- A read issued against the manufacturer endpoint
(`dcim.manufacturers.get(slug=...)` resp. `.filter(name=...)`). -/
inductive ReadCall where
  | getBySlug (slug : String)
  | filterByName (name : String)
  deriving DecidableEq, Repr

/-- A write issued against the manufacturer endpoint: `create(payload)`,
`record.update(changes-dict)`, `record.update(full-payload)` or
`record.delete()`. -/
inductive WriteCall where
  | create (p : Payload)
  | updateDelta (d : Delta)
  | updateFull (p : Payload)
  | delete (id : Nat)
  deriving DecidableEq, Repr

/-- The remote collaborator's behaviour for one invocation: responses to tag
lookups, manufacturer lookups, and writes.  `createResult p = none` models
`create` raising `RequestError` (the one write error the source catches).
`updateResult` is the outcome of the at most one `record.update` call of an
invocation: `Except.ok b` is its boolean return value, `Except.error e` a
`RequestError` the source leaves uncaught (dcim_manufacturers.py lines 194
and 220); `deleteResult` is likewise the outcome of the at most one
`record.delete` call (line 236, also uncaught). -/
structure Api where
  tagBySlug : String → Option Nat
  tagByName : String → Option Nat
  getBySlug : String → Option Rec
  filterByName : String → List Rec
  createResult : Payload → Option Rec
  updateResult : Except String Bool
  deleteResult : Except String Unit

/-- Insertion of a number into a sorted list (helper for `sorted`). -/
def insertNat (n : Nat) : List Nat → List Nat
  | [] => [n]
  | m :: ms => if n ≤ m then n :: m :: ms else m :: insertNat n ms

/-- Python `sorted` on a list of tag identifiers. -/
def sortNats : List Nat → List Nat
  | [] => []
  | n :: ns => insertNat n (sortNats ns)

/-- `_resolve_tags` (identical in both source variants): for each tag name,
look up by slug, fall back to name, abort with an exception on the first
miss; returns the list of tag ids in input order. -/
def resolve_tags (api : Api) : List String → Except String (List Nat)
  | [] => Except.ok []
  | t :: ts =>
    match (api.tagBySlug t).orElse (fun _ => api.tagByName t) with
    | some i =>
      match resolve_tags api ts with
      | Except.ok rest => Except.ok (i :: rest)
      | Except.error e => Except.error e
    | none => Except.error ("Tag " ++ t ++ " not found in NetBox.")

/-- The empty `lookup` dict. -/
def emptyLookup : LookupMap := ⟨none, none, none, none⟩

/-- Whether a `lookup` dict restricted to managed keys is empty. -/
def LookupMap.isEmptyMap (l : LookupMap) : Bool :=
  l.name.isNone && l.slug.isNone && l.description.isNone && l.tags.isNone

/-- Python truthiness test `not lookup` on `data.get("lookup", {})`:
true when the key is absent or the dict empty. -/
def lookupFalsy : Option LookupMap → Bool
  | none => true
  | some l => l.isEmptyMap

/-- Result of one full handler invocation: the outcome (or the text of an
uncaught exception), the manufacturer-endpoint reads, and the writes. -/
structure RunResult where
  outcome : Except String Outcome
  reads : List ReadCall
  writes : List WriteCall
  deriving Repr

end NetboxSpec

namespace NetboxSpec.DcimV1

/-!  Embedding of `src/plugins/module_utils/dcim_manufacturers.py`, the
variant the Ansible module imports.  -/

open NetboxSpec

/-- `self.data["name"].lower().replace(" ", "-")`: the derived slug of
`build_payload`.  (`lower` is modelled on the ASCII range, which covers
every behaviour the theorems below rely on.) -/
def derivedSlug (n : String) : String :=
  String.mk (n.data.map (fun c =>
    let lc := c.toLower
    if lc = ' ' then '-' else lc))

/-- `build_payload` of dcim_manufacturers.py (lines 27-51): `name` always;
`slug` always — explicit slug if truthy, else derived from name (Python
`or`); `description`/`tags` according to stage.  Tag resolution may raise. -/
def build_payload (api : Api) (data : InputData) (stage : Stage) :
    Except String Payload :=
  let slugVal : String :=
    match data.slug with
    | some s => if s = "" then derivedSlug data.name else s
    | none => derivedSlug data.name
  match stage with
  | Stage.override =>
    match resolve_tags api (data.tags.getD []) with
    | Except.ok ids =>
      Except.ok { name := data.name, slug := some slugVal,
                  description := some (data.description.getD ""),
                  tags := some ids }
    | Except.error e => Except.error e
  | Stage.merged =>
    match data.tags with
    | some ts =>
      match resolve_tags api ts with
      | Except.ok ids =>
        Except.ok { name := data.name, slug := some slugVal,
                    description := data.description, tags := some ids }
      | Except.error e => Except.error e
    | none =>
      Except.ok { name := data.name, slug := some slugVal,
                  description := data.description, tags := none }
  | Stage.absent =>
    Except.ok { name := data.name, slug := some slugVal,
                description := none, tags := none }

/-- Search-field selection of `perform_lookup` (lines 80-97): in `merged`
with falsy `lookup`, no fields at all; else the managed keys of `lookup`;
if that is empty and the stage is `override`, fall back to the managed
fields present directly on the input data. -/
def searchFields (data : InputData) (stage : Stage) : LookupMap :=
  if stage = Stage.merged ∧ lookupFalsy data.lookup then emptyLookup
  else
    let sf := data.lookup.getD emptyLookup
    if sf.isEmptyMap ∧ stage = Stage.override then
      ⟨some data.name, data.slug, data.description, data.tags⟩
    else sf

/-- `perform_lookup` (lines 73-108): with empty search fields the
manufacturer stays `None`; with `slug` among them, one `get(slug=...)`;
else with `name`, one `filter(name=...)` — a unique hit binds it, several
raise `Multiple manufacturers found`, zero leaves `None`.  Returns the
bound record (or the exception text) together with the reads issued. -/
def perform_lookup (api : Api) (data : InputData) (stage : Stage) :
    Except String (Option Rec) × List ReadCall :=
  let sf := searchFields data stage
  if sf.isEmptyMap then (Except.ok none, [])
  else
    match sf.slug with
    | some s => (Except.ok (api.getBySlug s), [ReadCall.getBySlug s])
    | none =>
      match sf.name with
      | some n =>
        match api.filterByName n with
        | [r] => (Except.ok (some r), [ReadCall.filterByName n])
        | [] => (Except.ok none, [ReadCall.filterByName n])
        | _ :: _ :: _ =>
          (Except.error ("Multiple manufacturers found with name " ++ n ++ "."),
           [ReadCall.filterByName n])
      | none => (Except.ok none, [])

/-- The `changes` dict built by the comparison loop of `is_different`
(lines 122-146): desired state takes the payload values with defaults
`""` for description and `[]` for tags, tags compared sorted. -/
def computeChanges (m : Rec) (p : Payload) : Delta :=
  let dSlug := p.slug.getD ""
  let dDescription := p.description.getD ""
  let dTags := sortNats (p.tags.getD [])
  { name := if p.name = m.name then none else some p.name,
    slug := if dSlug = m.slug then none else some dSlug,
    description := if dDescription = m.description then none else some dDescription,
    tags := if dTags = sortNats m.tags then none else some dTags }

/-- `is_different` (lines 110-156) on a bound manufacturer: the comparison
loop, then — only in `merged` stage — removal of `description`/`tags`
changes whose keys the raw input never supplied. -/
def is_different (m : Rec) (p : Payload) (data : InputData) (stage : Stage) :
    Delta :=
  let c := computeChanges m p
  if stage = Stage.merged then
    { c with
      description := if data.description.isNone then none else c.description,
      tags := if data.tags.isNone then none else c.tags }
  else c

/-- `ensure_present` (lines 158-206): create when no manufacturer is bound
(check mode short-circuits; `RequestError` from create becomes a failed
result); otherwise diff via `is_different(self.state)` and update when the
delta is truthy.  The `record.update` call is not wrapped in try/except: a
returned boolean selects `serialize()` or `{}`, while a `RequestError`
propagates uncaught (`Except.error`) after the write was issued. -/
def ensure_present (api : Api) (data : InputData) (p : Payload)
    (m : Option Rec) (state : Stage) (check_mode : Bool) :
    Except String Outcome × List WriteCall :=
  match m with
  | none =>
    if check_mode then
      (Except.ok { changed := true,
                   msg := "Manufacturer " ++ p.name ++ " would be created." }, [])
    else
      match api.createResult p with
      | some created =>
        (Except.ok { changed := true,
                     msg := "Manufacturer " ++ created.name ++ " has been created.",
                     manufacturer := some (SerializedRec.record created) },
         [WriteCall.create p])
      | none =>
        (Except.ok { failed := true,
                     msg := "Failed to create manufacturer " ++ p.name ++ ".",
                     details := some "RequestError" },
         [WriteCall.create p])
  | some mf =>
    let updates := is_different mf p data state
    if updates.nonempty then
      if check_mode then
        (Except.ok { changed := true,
                     msg := "Manufacturer " ++ mf.name ++ " would be updated.",
                     updates := some updates }, [])
      else
        match api.updateResult with
        | Except.error e => (Except.error e, [WriteCall.updateDelta updates])
        | Except.ok success =>
          (Except.ok { changed := true,
                       msg := "Manufacturer " ++ p.name ++ " has been updated.",
                       updates := some updates,
                       manufacturer := some (if success then SerializedRec.record mf
                         else SerializedRec.emptyDict) },
           [WriteCall.updateDelta updates])
    else
      (Except.ok { changed := false,
                   msg := "No changes required for " ++ mf.name ++ ".",
                   manufacturer := some (SerializedRec.record mf) }, [])

/-- `override` (lines 208-225): with no bound manufacturer, delegate to
`ensure_present`; otherwise (after the check-mode short-circuit) always
update with the full payload and report changed.  As in `ensure_present`,
a `RequestError` from the unguarded `record.update` call propagates
uncaught after the write was issued. -/
def overrideOp (api : Api) (data : InputData) (p : Payload)
    (m : Option Rec) (state : Stage) (check_mode : Bool) :
    Except String Outcome × List WriteCall :=
  match m with
  | none => ensure_present api data p none state check_mode
  | some mf =>
    if check_mode then
      (Except.ok { changed := true,
                   msg := "Manufacturer " ++ p.name ++ " would be overridden." }, [])
    else
      match api.updateResult with
      | Except.error e => (Except.error e, [WriteCall.updateFull p])
      | Except.ok success =>
        (Except.ok { changed := true,
                     msg := "Manufacturer " ++ p.name ++ " has been overridden.",
                     manufacturer := some (if success then SerializedRec.record mf
                       else SerializedRec.emptyDict) },
         [WriteCall.updateFull p])

/-- `ensure_absent` (lines 227-237): the `record.delete()` call is likewise
unguarded, so a `RequestError` from it propagates uncaught after the
delete was issued. -/
def ensure_absent (api : Api) (m : Option Rec) (check_mode : Bool) :
    Except String Outcome × List WriteCall :=
  match m with
  | none =>
    (Except.ok { changed := false, msg := "Manufacturer already absent." }, [])
  | some mf =>
    if check_mode then
      (Except.ok { changed := true,
                   msg := "Manufacturer " ++ mf.name ++ " would be deleted." }, [])
    else
      match api.deleteResult with
      | Except.error e => (Except.error e, [WriteCall.delete mf.id])
      | Except.ok _ =>
        (Except.ok { changed := true,
                     msg := "Manufacturer " ++ mf.name ++ " has been deleted." },
         [WriteCall.delete mf.id])

/-- One full handler invocation as driven by the module: `__init__` builds
the payload (tag resolution may raise) and performs the lookup (which may
raise on ambiguity), then the module dispatches on the state.  Uncaught
exceptions surface as `Except.error`. -/
def run (api : Api) (data : InputData) (state : Stage) (check_mode : Bool) :
    RunResult :=
  match build_payload api data state with
  | Except.error e => ⟨Except.error e, [], []⟩
  | Except.ok p =>
    match perform_lookup api data state with
    | (Except.error e, reads) => ⟨Except.error e, reads, []⟩
    | (Except.ok m, reads) =>
      let (o, w) :=
        match state with
        | Stage.merged => ensure_present api data p m state check_mode
        | Stage.override => overrideOp api data p m state check_mode
        | Stage.absent => ensure_absent api m check_mode
      ⟨o, reads, w⟩

end NetboxSpec.DcimV1

namespace NetboxSpec.DcimV2

/-!  Embedding of `src/plugins/module_utils/DcimManufacturers.py`, the
stricter variant (imported by no module).  Only the methods the claims
touch are embedded: `slugify`, `build_payload`, `is_different`,
`ensure_present`.  The source class never sets `self.state`; where a
method reads it, the value is taken as an explicit parameter.  -/

open NetboxSpec

/-- One step of `unicodedata.normalize("NFKD", ...)`, modelled character by
character on the Latin letters the repository's inputs use: each
precomposed accented letter decomposes into its base letter followed by a
combining mark; every other character is left alone. -/
def nfkdChar (c : Char) : List Char :=
  if c = 'á' then ['a', '́'] else
  if c = 'à' then ['a', '̀'] else
  if c = 'â' then ['a', '̂'] else
  if c = 'ä' then ['a', '̈'] else
  if c = 'ã' then ['a', '̃'] else
  if c = 'é' then ['e', '́'] else
  if c = 'è' then ['e', '̀'] else
  if c = 'ê' then ['e', '̂'] else
  if c = 'ë' then ['e', '̈'] else
  if c = 'í' then ['i', '́'] else
  if c = 'î' then ['i', '̂'] else
  if c = 'ï' then ['i', '̈'] else
  if c = 'ó' then ['o', '́'] else
  if c = 'ô' then ['o', '̂'] else
  if c = 'ö' then ['o', '̈'] else
  if c = 'ú' then ['u', '́'] else
  if c = 'ù' then ['u', '̀'] else
  if c = 'û' then ['u', '̂'] else
  if c = 'ü' then ['u', '̈'] else
  if c = 'ç' then ['c', '̧'] else
  if c = 'ñ' then ['n', '̃'] else
  if c = 'É' then ['E', '́'] else
  if c = 'È' then ['E', '̀'] else
  if c = 'À' then ['A', '̀'] else
  if c = 'Ç' then ['C', '̧'] else
  [c]

/-- Python `\w` after the ASCII projection: letters, digits, underscore. -/
def isWordChar (c : Char) : Bool :=
  c.isAlpha || c.isDigit || c = '_'

/-- Python `\s` / `str.isspace` on the ASCII range. -/
def isSpaceChar (c : Char) : Bool :=
  c = ' ' || c = '\t' || c = '\n' || c = '\r' || c = '\x0b' || c = '\x0c'

/-- A character matched by the class `[-\s]` of the final substitution. -/
def isDashOrSpace (c : Char) : Bool :=
  c = '-' || isSpaceChar c

/-- `str.strip()`: drop leading and trailing whitespace. -/
def stripSpaces (l : List Char) : List Char :=
  ((l.dropWhile isSpaceChar).reverse.dropWhile isSpaceChar).reverse

/-- `re.sub(r"[-\s]+", "-", ...)` rendered as a left-to-right scan: the flag
records whether we are inside a run of `[-\s]` characters; the first
character of each run emits a single hyphen, the rest of the run emits
nothing. -/
def collapseAux (inRun : Bool) : List Char → List Char
  | [] => []
  | c :: rest =>
    if isDashOrSpace c then
      if inRun then collapseAux true rest
      else '-' :: collapseAux true rest
    else c :: collapseAux false rest

/-- `re.sub(r"[-\s]+", "-", ...)`: each maximal run of hyphens/whitespace
becomes a single hyphen. -/
def collapseRuns (l : List Char) : List Char := collapseAux false l

/-- `slugify` (DcimManufacturers.py lines 145-152): NFKD-decompose, drop the
non-ASCII remainder, strip characters outside word/whitespace/hyphen, trim,
lowercase, collapse hyphen/whitespace runs into single hyphens. -/
def slugify (value : String) : String :=
  let decomposed := (value.data.map nfkdChar).flatten
  let ascii := decomposed.filter (fun c => c.toNat ≤ 127)
  let kept := ascii.filter (fun c => isWordChar c || isSpaceChar c || c = '-')
  let lowered := (stripSpaces kept).map Char.toLower
  String.mk (collapseRuns lowered)

/-- `build_payload` of DcimManufacturers.py (lines 61-87): `name` always;
`slug` only when the input supplies one, passed through `slugify`;
`description`/`tags` according to stage exactly as in the other variant. -/
def build_payload (api : Api) (data : InputData) (stage : Stage) :
    Except String Payload :=
  let slugVal : Option String := data.slug.map slugify
  match stage with
  | Stage.override =>
    match resolve_tags api (data.tags.getD []) with
    | Except.ok ids =>
      Except.ok { name := data.name, slug := slugVal,
                  description := some (data.description.getD ""),
                  tags := some ids }
    | Except.error e => Except.error e
  | Stage.merged =>
    match data.tags with
    | some ts =>
      match resolve_tags api ts with
      | Except.ok ids =>
        Except.ok { name := data.name, slug := slugVal,
                    description := data.description, tags := some ids }
      | Except.error e => Except.error e
    | none =>
      Except.ok { name := data.name, slug := slugVal,
                  description := data.description, tags := none }
  | Stage.absent =>
    Except.ok { name := data.name, slug := slugVal,
                description := none, tags := none }

/-- `is_different` of DcimManufacturers.py (lines 176-222) on a bound
manufacturer: like the other variant except that a payload without `slug`
falls back to the manufacturer's own slug (line 199). -/
def is_different (m : Rec) (p : Payload) (data : InputData) (stage : Stage) :
    Delta :=
  let dSlug := p.slug.getD m.slug
  let dDescription := p.description.getD ""
  let dTags := sortNats (p.tags.getD [])
  let c : Delta :=
    { name := if p.name = m.name then none else some p.name,
      slug := if dSlug = m.slug then none else some dSlug,
      description := if dDescription = m.description then none else some dDescription,
      tags := if dTags = sortNats m.tags then none else some dTags }
  if stage = Stage.merged then
    { c with
      description := if data.description.isNone then none else c.description,
      tags := if data.tags.isNone then none else c.tags }
  else c

/-- `ensure_present` of DcimManufacturers.py (lines 224-283): first the
explicit-lookup guard (lines 230-237) — no manufacturer bound while the
input carries a `lookup` dict naming `slug` or `name` is a failure and
nothing is created; otherwise create (deriving a slug from the name via
`slugify` when the payload has none), or diff-and-update as in the other
variant (unguarded `record.update`: a `RequestError` propagates uncaught
after the write).  `state` stands for the `self.state` attribute the
source reads without ever assigning it. -/
def ensure_present (api : Api) (data : InputData) (p : Payload)
    (m : Option Rec) (state : Stage) (check_mode : Bool) :
    Except String Outcome × List WriteCall :=
  if m.isNone && (match data.lookup with
                  | some l => l.slug.isSome || l.name.isSome
                  | none => false) then
    (Except.ok { failed := true,
                 msg := "No existing manufacturer matches lookup. Aborting creation." },
     [])
  else
    match m with
    | none =>
      let p := if p.slug.isNone then { p with slug := some (slugify p.name) } else p
      if check_mode then
        (Except.ok { changed := true,
                     msg := "Manufacturer " ++ p.name ++ " would be created." }, [])
      else
        match api.createResult p with
        | some created =>
          (Except.ok { changed := true,
                       msg := "Manufacturer " ++ created.name ++ " has been created.",
                       manufacturer := some (SerializedRec.record created) },
           [WriteCall.create p])
        | none =>
          (Except.ok { failed := true,
                       msg := "Failed to create manufacturer " ++ p.name ++ ".",
                       details := some "RequestError" },
           [WriteCall.create p])
    | some mf =>
      let updates := is_different mf p data state
      if updates.nonempty then
        if check_mode then
          (Except.ok { changed := true,
                       msg := "Manufacturer " ++ mf.name ++ " would be updated.",
                       updates := some updates }, [])
        else
          match api.updateResult with
          | Except.error e => (Except.error e, [WriteCall.updateDelta updates])
          | Except.ok success =>
            (Except.ok { changed := true,
                         msg := "Manufacturer " ++ p.name ++ " has been updated.",
                         updates := some updates,
                         manufacturer := some (if success then SerializedRec.record mf
                           else SerializedRec.emptyDict) },
             [WriteCall.updateDelta updates])
      else
        (Except.ok { changed := false,
                     msg := "No changes required for " ++ mf.name ++ ".",
                     manufacturer := some (SerializedRec.record mf) }, [])

end NetboxSpec.DcimV2

namespace NetboxSpec

/-!  Observation helpers and the concrete inputs used by witnesses and
counterexamples.  -/

/-- The `changed` flag of a run that did not raise. -/
def getChanged : Except String Outcome → Option Bool
  | Except.ok o => some o.changed
  | Except.error _ => none

/-- The `failed` flag of a run that did not raise. -/
def getFailed : Except String Outcome → Option Bool
  | Except.ok o => some o.failed
  | Except.error _ => none

/-- The `manufacturer` key of a run that did not raise. -/
def getSerialized : Except String Outcome → Option (Option SerializedRec)
  | Except.ok o => some o.manufacturer
  | Except.error _ => none

/-- Outcome classification of a run: `changed`, `failed`, and the field
names of the reported delta (empty when no `updates` key is present). -/
def classify (r : RunResult) : Except String (Bool × Bool × List String) :=
  r.outcome.map (fun o => (o.changed, o.failed, (o.updates.map Delta.keys).getD []))

/-- Input `{name: "Cisco"}` with no lookup (claim C1). -/
def c1Data : InputData := ⟨"Cisco", none, none, none, none⟩

/-- The record the first `merged` call creates for `c1Data`. -/
def c1Rec : Rec := ⟨1, "Cisco", "cisco", "", []⟩

/-- Remote state before the first call: no manufacturer exists and `create`
succeeds, returning `c1Rec`. -/
def c1ApiFirst : Api :=
  ⟨fun _ => none, fun _ => none, fun _ => none, fun _ => [],
   fun _ => some c1Rec, Except.ok true, Except.ok ()⟩

/-- Remote state after the first call: `c1Rec` is now present under its slug
and name, and a second `create` collides (RequestError). -/
def c1ApiSecond : Api :=
  ⟨fun _ => none, fun _ => none,
   fun s => if s = "cisco" then some c1Rec else none,
   fun n => if n = "Cisco" then [c1Rec] else [],
   fun _ => none, Except.ok true, Except.ok ()⟩

/-- The payload `build_payload` derives from `c1Data` in the imported
variant: slug auto-derived from the name. -/
def c1Payload : Payload := ⟨"Cisco", some "cisco", none, none⟩

/-- `c1Data` extended with an explicit slug lookup, for the amended claim. -/
def c1LkData : InputData :=
  ⟨"Cisco", none, none, none, some ⟨none, some "cisco", none, none⟩⟩

/-- Input with an explicit slug lookup that matches nothing (claim C2). -/
def c2Data : InputData :=
  ⟨"X", none, none, none, some ⟨none, some "missing", none, none⟩⟩

/-- Record returned by a successful create for `c2Data`. -/
def c2Rec : Rec := ⟨2, "X", "x", "", []⟩

/-- Remote with no manufacturer at all; create succeeds. -/
def c2Api : Api :=
  ⟨fun _ => none, fun _ => none, fun _ => none, fun _ => [],
   fun _ => some c2Rec, Except.ok true, Except.ok ()⟩

/-- Payload the imported variant builds for `c2Data` in `merged` stage. -/
def c2Payload : Payload := ⟨"X", some "x", none, none⟩

/-- A remote that answers nothing (tag or manufacturer); claim C3 never
reaches it. -/
def c3Api : Api :=
  ⟨fun _ => none, fun _ => none, fun _ => none, fun _ => [], fun _ => none,
   Except.ok true, Except.ok ()⟩

/-- Merged-stage input without an explicit slug (claim C3). -/
def c3DataNoSlug : InputData := ⟨"Acme Corp", none, none, none, none⟩

/-- Input whose explicit slug is not in normal form (claim C3). -/
def c3DataRaw : InputData := ⟨"X", some "My Slug!", none, none, none⟩

/-- Merged-stage input without lookup (claim C4). -/
def c4Data : InputData := ⟨"Juniper", none, some "router vendor", none, none⟩

/-- Remote with records the lookup could have found, and a working create:
claim C4 shows none of the reads happen. -/
def c4Rec : Rec := ⟨7, "Juniper", "juniper", "old", []⟩

/-- See `c4Rec`. -/
def c4Api : Api :=
  ⟨fun _ => none, fun _ => none,
   fun s => if s = "juniper" then some c4Rec else none,
   fun n => if n = "Juniper" then [c4Rec] else [],
   fun _ => some c4Rec, Except.ok true, Except.ok ()⟩

/-- Payload built from `c4Data` in `merged` stage. -/
def c4Payload : Payload := ⟨"Juniper", some "juniper", some "router vendor", none⟩

/-- Existing record whose tags differ from an input that omits tags
(claim C5). -/
def c5Rec : Rec := ⟨3, "HP", "hp", "Hewlett", [4, 9]⟩

/-- Payload comparing against `c5Rec` with different description/tags
defaults. -/
def c5Payload : Payload := ⟨"HP", some "hp", none, none⟩

/-- Input that omits description and tags (claim C5). -/
def c5Data : InputData := ⟨"HP", some "hp", none, none, none⟩

/-- Existing record equal to the override payload field for field
(claim C6). -/
def c6Rec : Rec := ⟨5, "Cisco", "cisco", "", []⟩

/-- Remote that finds `c6Rec` by slug (claim C6). -/
def c6Api : Api :=
  ⟨fun _ => none, fun _ => none,
   fun s => if s = "cisco" then some c6Rec else none,
   fun n => if n = "Cisco" then [c6Rec] else [],
   fun _ => none, Except.ok true, Except.ok ()⟩

/-- Override input resolving to `c6Rec` with zero field differences. -/
def c6Data : InputData :=
  ⟨"Cisco", some "cisco", none, none, some ⟨none, some "cisco", none, none⟩⟩

/-- Full payload the override stage builds from `c6Data`. -/
def c6Payload : Payload := ⟨"Cisco", some "cisco", some "", some []⟩

/-- Two distinct records sharing the name `Cisco` (claim C7). -/
def c7RecA : Rec := ⟨1, "Cisco", "cisco", "", []⟩

/-- See `c7RecA`. -/
def c7RecB : Rec := ⟨2, "Cisco", "cisco-2", "", []⟩

/-- Remote returning both records for a name filter (claim C7). -/
def c7Api : Api :=
  ⟨fun _ => none, fun _ => none, fun _ => none,
   fun n => if n = "Cisco" then [c7RecA, c7RecB] else [],
   fun _ => some c7RecA, Except.ok true, Except.ok ()⟩

/-- Input looking up by name only (claim C7). -/
def c7Data : InputData :=
  ⟨"Cisco", none, none, none, some ⟨some "Cisco", none, none, none⟩⟩

/-- Merged-stage input with no lookup whose create will fail remotely
(claim C8). -/
def c8Data : InputData := ⟨"A", none, none, none, none⟩

/-- Remote on which `create` raises `RequestError` for every payload. -/
def c8Api : Api :=
  ⟨fun _ => none, fun _ => none, fun _ => none, fun _ => [], fun _ => none,
   Except.ok true, Except.ok ()⟩

/-- Record bound by the update/delete parity counterexamples. -/
def c8Rec : Rec := ⟨11, "B", "b", "", []⟩

/-- Merged input resolving `c8Rec` by slug lookup with a differing
description, so a real run issues an update. -/
def c8UpdData : InputData :=
  ⟨"B", some "b", some "newdesc", none, some ⟨none, some "b", none, none⟩⟩

/-- Remote that resolves `c8Rec` but rejects the update call with an
uncaught `RequestError`. -/
def c8UpdApi : Api :=
  ⟨fun _ => none, fun _ => none,
   fun s => if s = "b" then some c8Rec else none,
   fun n => if n = "B" then [c8Rec] else [],
   fun _ => none, Except.error "RequestError", Except.ok ()⟩

/-- Absent-stage input resolving `c8Rec` through a slug lookup. -/
def c8DelData : InputData :=
  ⟨"B", some "b", none, none, some ⟨none, some "b", none, none⟩⟩

/-- Remote that resolves `c8Rec` but rejects the delete call with an
uncaught `RequestError`. -/
def c8DelApi : Api :=
  ⟨fun _ => none, fun _ => none,
   fun s => if s = "b" then some c8Rec else none,
   fun n => if n = "B" then [c8Rec] else [],
   fun _ => none, Except.ok true, Except.error "RequestError"⟩

/-- Remote for the parity witness: create succeeds everywhere. -/
def c8ApiOk : Api :=
  ⟨fun _ => none, fun _ => none, fun _ => none, fun _ => [],
   fun _ => some c1Rec, Except.ok true, Except.ok ()⟩

/-- Existing record that a merged update will touch while the remote
`update` call returns a falsy success value (claim C10). -/
def c10Rec : Rec := ⟨9, "Dell", "dell", "old text", []⟩

/-- Remote that resolves `c10Rec` by slug and whose `update` returns
falsy. -/
def c10Api : Api :=
  ⟨fun _ => none, fun _ => none,
   fun s => if s = "dell" then some c10Rec else none,
   fun n => if n = "Dell" then [c10Rec] else [],
   fun _ => none, Except.ok false, Except.ok ()⟩

/-- Input updating the description of `c10Rec` through an explicit slug
lookup. -/
def c10Data : InputData :=
  ⟨"Dell", some "dell", some "new text", none,
   some ⟨none, some "dell", none, none⟩⟩

/-- Payload built from `c10Data` in `merged` stage. -/
def c10Payload : Payload := ⟨"Dell", some "dell", some "new text", none⟩

end NetboxSpec

namespace NetboxSpec

open DcimV1 DcimV2

/-- The hyphen-collapsing scan never emits a whitespace character: run
characters only ever surface as the single hyphen, and characters copied
verbatim are exactly those outside the `[-\s]` class. -/
theorem collapseAux_no_space (l : List Char) :
    ∀ b : Bool,
      ((DcimV2.collapseAux b l).all (fun c => !(DcimV2.isSpaceChar c))) = true := by
  induction l with
  | nil => intro b; rfl
  | cons c rest ih =>
    intro b
    unfold DcimV2.collapseAux
    by_cases h : DcimV2.isDashOrSpace c = true
    · cases b with
      | true => simpa [h] using ih true
      | false =>
        simp only [h, if_true, Bool.false_eq_true, if_false, List.all_cons,
          Bool.and_eq_true]
        exact ⟨by decide, ih true⟩
    · have hc : DcimV2.isSpaceChar c = false := by
        revert h
        unfold DcimV2.isDashOrSpace
        cases DcimV2.isSpaceChar c <;> simp
      simp [h, hc, ih false]

/-- Claim C5 — merge-mode suppression: in `merged` stage, when the raw input
omits `description` the computed delta never carries `description`
(likewise for `tags`), while in `override` stage `is_different` is exactly
the raw field comparison with no suppression. -/
theorem C5_merged_suppression (m : Rec) (p : Payload) (data : InputData) :
    (data.description = none →
      (DcimV1.is_different m p data Stage.merged).description = none) ∧
    (data.tags = none →
      (DcimV1.is_different m p data Stage.merged).tags = none) ∧
    DcimV1.is_different m p data Stage.override = DcimV1.computeChanges m p := by
  refine ⟨?_, ?_, ?_⟩
  · intro h
    simp [DcimV1.is_different, h]
  · intro h
    simp [DcimV1.is_different, h]
  · simp [DcimV1.is_different]

/-- Witness for C5: against `c5Rec` (description `"Hewlett"`, tags
`[4, 9]`) and a payload whose defaults differ on both fields, the merged
delta of an input omitting both keys drops both, while the override delta
keeps them. -/
theorem C5_witness :
    c5Data.description = none ∧ c5Data.tags = none ∧
    (DcimV1.is_different c5Rec c5Payload c5Data Stage.merged).description = none ∧
    (DcimV1.is_different c5Rec c5Payload c5Data Stage.merged).tags = none ∧
    DcimV1.is_different c5Rec c5Payload c5Data Stage.override =
      DcimV1.computeChanges c5Rec c5Payload ∧
    (DcimV1.computeChanges c5Rec c5Payload).description = some "" ∧
    (DcimV1.computeChanges c5Rec c5Payload).tags = some [] := by
  refine ⟨rfl, rfl, ?_, ?_, ?_, by decide, by decide⟩
  · exact (C5_merged_suppression c5Rec c5Payload c5Data).1 rfl
  · exact (C5_merged_suppression c5Rec c5Payload c5Data).2.1 rfl
  · exact (C5_merged_suppression c5Rec c5Payload c5Data).2.2

end NetboxSpec

namespace NetboxSpec

/-- Claim C9 — `slugify` is a total pure function: it maps
`"Café Networks!"` to `"cafe-networks"`, collapses whitespace runs (shown
on `"  A   B  "`), returns the empty string when nothing survives
normalization, and its output never contains a whitespace character. -/
theorem C9_slugify_normalizes :
    DcimV2.slugify "Café Networks!" = "cafe-networks" ∧
    DcimV2.slugify "  A   B  " = "a-b" ∧
    DcimV2.slugify "!!!" = "" ∧
    ∀ s : String,
      ((DcimV2.slugify s).data.all (fun c => !(DcimV2.isSpaceChar c))) = true := by
  refine ⟨by rfl, by rfl, by rfl, ?_⟩
  intro s
  unfold DcimV2.slugify DcimV2.collapseRuns
  exact collapseAux_no_space _ false

/-- Every payload the DcimManufacturers.py `build_payload` returns carries
exactly the slugified explicit slug of the input, or no slug key when the
input has none (lines 75-76 of that file), in every stage. -/
theorem build_payload_slug_v2 (api : Api) (data : InputData)
    (stage : Stage) (p : Payload)
    (h : DcimV2.build_payload api data stage = Except.ok p) :
    p.slug = data.slug.map DcimV2.slugify := by
  cases stage with
  | override =>
    cases hres : resolve_tags api (data.tags.getD []) with
    | ok ids =>
      simp only [DcimV2.build_payload, hres, Except.ok.injEq] at h
      rw [← h]
    | error e => simp [DcimV2.build_payload, hres] at h
  | merged =>
    cases hdt : data.tags with
    | some ts =>
      cases hres : resolve_tags api ts with
      | ok ids =>
        simp only [DcimV2.build_payload, hdt, hres, Except.ok.injEq] at h
        rw [← h]
      | error e => simp [DcimV2.build_payload, hdt, hres] at h
    | none =>
      simp only [DcimV2.build_payload, hdt, Except.ok.injEq] at h
      rw [← h]
  | absent =>
    simp only [DcimV2.build_payload, Except.ok.injEq] at h
    rw [← h]

/-- Claim C3 (amended) — the omit-slug-on-merge and normalize-explicit-slug
rules hold for `build_payload` of the DcimManufacturers.py variant: a
merged-stage build without explicit slug has no `slug` key, and whenever
the input carries a slug, the payload's slug is its `slugify` image.  (The
imported dcim_manufacturers.py variant violates both rules — see the
counterexample.) -/
theorem C3_v2_slug_rule (api : Api) (data : InputData) (stage : Stage)
    (p : Payload) :
    (data.slug = none →
      DcimV2.build_payload api data Stage.merged = Except.ok p →
      p.slug = none) ∧
    (∀ s, data.slug = some s →
      DcimV2.build_payload api data stage = Except.ok p →
      p.slug = some (DcimV2.slugify s)) := by
  constructor
  · intro hs hb
    have h := build_payload_slug_v2 api data Stage.merged p hb
    rw [hs] at h
    simpa using h
  · intro s hs hb
    have h := build_payload_slug_v2 api data stage p hb
    rw [hs] at h
    simpa using h

/-- Counterexample to claim C3 as stated: in the variant the module
imports, a merged build with no explicit slug still carries a `slug` key
(auto-derived `"acme-corp"`), and an explicit slug is copied verbatim
(`"My Slug!"`) rather than normalized to `slugify`'s `"my-slug"`. -/
theorem C3_counterexample :
    (DcimV1.build_payload c3Api c3DataNoSlug Stage.merged).toOption.map Payload.slug
      = some (some "acme-corp") ∧
    (DcimV1.build_payload c3Api c3DataRaw Stage.merged).toOption.map Payload.slug
      = some (some "My Slug!") ∧
    DcimV2.slugify "My Slug!" = "my-slug" ∧
    ("My Slug!" : String) ≠ "my-slug" :=
  ⟨rfl, rfl, rfl, by decide⟩

/-- Witness for C3: concrete builds of the DcimManufacturers.py variant
realizing both conjuncts of the amended claim. -/
theorem C3_witness :
    c3DataNoSlug.slug = none ∧
    DcimV2.build_payload c3Api c3DataNoSlug Stage.merged =
      Except.ok ⟨"Acme Corp", none, none, none⟩ ∧
    (⟨"Acme Corp", none, none, none⟩ : Payload).slug = none ∧
    c3DataRaw.slug = some "My Slug!" ∧
    DcimV2.build_payload c3Api c3DataRaw Stage.merged =
      Except.ok ⟨"X", some "my-slug", none, none⟩ ∧
    (⟨"X", some "my-slug", none, none⟩ : Payload).slug =
      some (DcimV2.slugify "My Slug!") := by
  refine ⟨rfl, rfl, ?_, rfl, rfl, ?_⟩
  · exact (C3_v2_slug_rule c3Api c3DataNoSlug Stage.merged
      ⟨"Acme Corp", none, none, none⟩).1 rfl rfl
  · exact (C3_v2_slug_rule c3Api c3DataRaw Stage.merged
      ⟨"X", some "my-slug", none, none⟩).2 "My Slug!" rfl rfl

/-- Claim C2 (amended) — the explicit failure on a missed lookup exists in
the DcimManufacturers.py variant: its `ensure_present`, given no bound
manufacturer and a lookup dict naming `slug` or `name`, returns a failed
outcome and issues no write.  (The variant the module imports falls
through to create instead — see the counterexample.) -/
theorem C2_v2_lookup_miss_fails (api : Api) (data : InputData) (p : Payload)
    (state : Stage) (check_mode : Bool) (L : LookupMap)
    (hL : data.lookup = some L)
    (hk : (L.slug.isSome || L.name.isSome) = true) :
    DcimV2.ensure_present api data p none state check_mode =
      (Except.ok { failed := true,
                   msg := "No existing manufacturer matches lookup. Aborting creation." },
       []) := by
  unfold DcimV2.ensure_present
  rw [hL]
  simp [hk]

/-- Counterexample to claim C2 as stated: in the variant the module
imports, a merged run whose lookup names a slug that matches nothing does
not fail — it proceeds to create the record. -/
theorem C2_counterexample :
    getFailed (DcimV1.run c2Api c2Data Stage.merged false).outcome = some false ∧
    getChanged (DcimV1.run c2Api c2Data Stage.merged false).outcome = some true ∧
    (DcimV1.run c2Api c2Data Stage.merged false).writes =
      [WriteCall.create c2Payload] :=
  ⟨rfl, rfl, rfl⟩

/-- Witness for C2: the amended claim realized at `c2Data`, whose lookup
names the slug `"missing"`. -/
theorem C2_witness :
    c2Data.lookup = some ⟨none, some "missing", none, none⟩ ∧
    (((⟨none, some "missing", none, none⟩ : LookupMap).slug.isSome ||
      (⟨none, some "missing", none, none⟩ : LookupMap).name.isSome)) = true ∧
    DcimV2.ensure_present c2Api c2Data c2Payload none Stage.merged false =
      (Except.ok { failed := true,
                   msg := "No existing manufacturer matches lookup. Aborting creation." },
       []) :=
  ⟨rfl, rfl,
    C2_v2_lookup_miss_fails c2Api c2Data c2Payload Stage.merged false
      ⟨none, some "missing", none, none⟩ rfl rfl⟩

end NetboxSpec

namespace NetboxSpec

/-- Claim C4 — merged stage without an explicit lookup: `perform_lookup`
issues no `get`/`filter` read at all and binds no record, so a real run
performs exactly the create write with the built payload. -/
theorem C4_merged_no_lookup_creates (api : Api) (data : InputData)
    (p : Payload)
    (hfal : lookupFalsy data.lookup = true)
    (hb : DcimV1.build_payload api data Stage.merged = Except.ok p) :
    DcimV1.perform_lookup api data Stage.merged = (Except.ok none, []) ∧
    (DcimV1.run api data Stage.merged false).reads = [] ∧
    (DcimV1.run api data Stage.merged false).writes = [WriteCall.create p] := by
  have hlk : DcimV1.perform_lookup api data Stage.merged = (Except.ok none, []) := by
    unfold DcimV1.perform_lookup DcimV1.searchFields
    simp [hfal, emptyLookup, LookupMap.isEmptyMap]
  refine ⟨hlk, ?_, ?_⟩
  · unfold DcimV1.run
    rw [hb, hlk]
  · unfold DcimV1.run
    rw [hb, hlk]
    unfold DcimV1.ensure_present
    cases hcr : api.createResult p <;> simp [hcr]

/-- Claim C6 — override always writes: whenever the override stage resolves
an existing record, the real run issues exactly one update carrying the
full payload and reports `changed=true` — even when every payload field
equals the record's (the witness instantiates that situation). -/
theorem C6_override_always_writes (api : Api) (data : InputData)
    (p : Payload) (mf : Rec) (reads : List ReadCall)
    (hb : DcimV1.build_payload api data Stage.override = Except.ok p)
    (hl : DcimV1.perform_lookup api data Stage.override =
      (Except.ok (some mf), reads)) :
    (DcimV1.run api data Stage.override false).writes =
      [WriteCall.updateFull p] ∧
    (∀ b : Bool, api.updateResult = Except.ok b →
      getChanged (DcimV1.run api data Stage.override false).outcome = some true ∧
      getFailed (DcimV1.run api data Stage.override false).outcome = some false) := by
  constructor
  · unfold DcimV1.run
    rw [hb, hl]
    unfold DcimV1.overrideOp
    cases api.updateResult <;> simp
  · intro b hub
    unfold DcimV1.run
    rw [hb, hl]
    unfold DcimV1.overrideOp
    simp [hub, getChanged, getFailed]

/-- Witness for C6: `c6Rec` agrees with the full override payload on every
managed field, yet the run still issues the force-write and reports a
change. -/
theorem C6_witness :
    DcimV1.build_payload c6Api c6Data Stage.override = Except.ok c6Payload ∧
    DcimV1.perform_lookup c6Api c6Data Stage.override =
      (Except.ok (some c6Rec), [ReadCall.getBySlug "cisco"]) ∧
    DcimV1.computeChanges c6Rec c6Payload = ⟨none, none, none, none⟩ ∧
    c6Api.updateResult = Except.ok true ∧
    (DcimV1.run c6Api c6Data Stage.override false).writes =
      [WriteCall.updateFull c6Payload] ∧
    getChanged (DcimV1.run c6Api c6Data Stage.override false).outcome = some true ∧
    getFailed (DcimV1.run c6Api c6Data Stage.override false).outcome = some false := by
  have h := C6_override_always_writes c6Api c6Data c6Payload c6Rec
    [ReadCall.getBySlug "cisco"] rfl rfl
  exact ⟨rfl, rfl, rfl, rfl, h.1, (h.2 true rfl).1, (h.2 true rfl).2⟩

/-- Claim C7 — ambiguity detection: when the chosen search fields name
`name` but not `slug` and the name filter returns at least two records,
the whole run aborts with the multiple-manufacturers exception and no
create/update/delete is issued. -/
theorem C7_ambiguous_match (api : Api) (data : InputData) (state : Stage)
    (check_mode : Bool) (n : String) (p : Payload) (a b : Rec) (rest : List Rec)
    (hb : DcimV1.build_payload api data state = Except.ok p)
    (h1 : (DcimV1.searchFields data state).slug = none)
    (h2 : (DcimV1.searchFields data state).name = some n)
    (hf : api.filterByName n = a :: b :: rest) :
    (DcimV1.run api data state check_mode).outcome =
      Except.error ("Multiple manufacturers found with name " ++ n ++ ".") ∧
    (DcimV1.run api data state check_mode).writes = [] := by
  have hsf : (DcimV1.searchFields data state).isEmptyMap = false := by
    unfold LookupMap.isEmptyMap
    rw [h2]
    simp
  have hlk : DcimV1.perform_lookup api data state =
      (Except.error ("Multiple manufacturers found with name " ++ n ++ "."),
       [ReadCall.filterByName n]) := by
    unfold DcimV1.perform_lookup
    simp [hsf, h1, h2, hf]
  unfold DcimV1.run
  rw [hb, hlk]
  exact ⟨rfl, rfl⟩

/-- Witness for C7: two records named `Cisco`, lookup by name only — the
run raises the ambiguity exception and performs no write. -/
theorem C7_witness :
    DcimV1.build_payload c7Api c7Data Stage.merged = Except.ok c1Payload ∧
    (DcimV1.searchFields c7Data Stage.merged).slug = none ∧
    (DcimV1.searchFields c7Data Stage.merged).name = some "Cisco" ∧
    c7Api.filterByName "Cisco" = [c7RecA, c7RecB] ∧
    (DcimV1.run c7Api c7Data Stage.merged false).outcome =
      Except.error ("Multiple manufacturers found with name " ++ "Cisco" ++ ".") ∧
    (DcimV1.run c7Api c7Data Stage.merged false).writes = [] := by
  have h := C7_ambiguous_match c7Api c7Data Stage.merged false "Cisco"
    c1Payload c7RecA c7RecB [] rfl rfl rfl rfl
  exact ⟨rfl, rfl, rfl, rfl, h.1, h.2⟩

/-- Claim C10 — a falsy `update` return value is not treated as failure:
with an existing record and a truthy delta (merged) or any payload
(override), the real run reports `changed=true`, no `failed`, the
updated/overridden message, and an empty `manufacturer` dict. -/
theorem C10_update_falsy_still_changed :
    (∀ (api : Api) (data : InputData) (p : Payload) (mf : Rec)
        (reads : List ReadCall),
      api.updateResult = Except.ok false →
      DcimV1.build_payload api data Stage.merged = Except.ok p →
      DcimV1.perform_lookup api data Stage.merged =
        (Except.ok (some mf), reads) →
      (DcimV1.is_different mf p data Stage.merged).nonempty = true →
      (DcimV1.run api data Stage.merged false).outcome = Except.ok
        { changed := true,
          msg := "Manufacturer " ++ p.name ++ " has been updated.",
          updates := some (DcimV1.is_different mf p data Stage.merged),
          manufacturer := some SerializedRec.emptyDict }) ∧
    (∀ (api : Api) (data : InputData) (p : Payload) (mf : Rec)
        (reads : List ReadCall),
      api.updateResult = Except.ok false →
      DcimV1.build_payload api data Stage.override = Except.ok p →
      DcimV1.perform_lookup api data Stage.override =
        (Except.ok (some mf), reads) →
      (DcimV1.run api data Stage.override false).outcome = Except.ok
        { changed := true,
          msg := "Manufacturer " ++ p.name ++ " has been overridden.",
          manufacturer := some SerializedRec.emptyDict }) := by
  constructor
  · intro api data p mf reads hu hb hl hne
    unfold DcimV1.run
    rw [hb, hl]
    unfold DcimV1.ensure_present
    simp [hne, hu]
  · intro api data p mf reads hu hb hl
    unfold DcimV1.run
    rw [hb, hl]
    unfold DcimV1.overrideOp
    simp [hu]

/-- Witness for C10: `c10Api.update` returns falsy, yet the merged update
of `c10Rec`'s description and the override of the same record both report
a change with an empty resulting record, not a failure. -/
theorem C10_witness :
    c10Api.updateResult = Except.ok false ∧
    DcimV1.build_payload c10Api c10Data Stage.merged = Except.ok c10Payload ∧
    DcimV1.perform_lookup c10Api c10Data Stage.merged =
      (Except.ok (some c10Rec), [ReadCall.getBySlug "dell"]) ∧
    (DcimV1.is_different c10Rec c10Payload c10Data Stage.merged).nonempty = true ∧
    (DcimV1.run c10Api c10Data Stage.merged false).outcome = Except.ok
      { changed := true,
        msg := "Manufacturer " ++ "Dell" ++ " has been updated.",
        updates := some (DcimV1.is_different c10Rec c10Payload c10Data Stage.merged),
        manufacturer := some SerializedRec.emptyDict } ∧
    (DcimV1.run c10Api c10Data Stage.override false).outcome = Except.ok
      { changed := true,
        msg := "Manufacturer " ++ "Dell" ++ " has been overridden.",
        manufacturer := some SerializedRec.emptyDict } := by
  refine ⟨rfl, rfl, rfl, rfl, ?_, ?_⟩
  · exact C10_update_falsy_still_changed.1 c10Api c10Data c10Payload c10Rec
      [ReadCall.getBySlug "dell"] rfl rfl rfl rfl
  · exact C10_update_falsy_still_changed.2 c10Api c10Data
      ⟨"Dell", some "dell", some "new text", some []⟩ c10Rec
      [ReadCall.getBySlug "dell"] rfl rfl rfl

end NetboxSpec

namespace NetboxSpec

/-- Witness for C4: `c4Data` has no lookup; although the remote knows a
record under the derived slug and name, the merged run reads nothing and
goes straight to create. -/
theorem C4_witness :
    lookupFalsy c4Data.lookup = true ∧
    DcimV1.build_payload c4Api c4Data Stage.merged = Except.ok c4Payload ∧
    (DcimV1.perform_lookup c4Api c4Data Stage.merged = (Except.ok none, []) ∧
     (DcimV1.run c4Api c4Data Stage.merged false).reads = [] ∧
     (DcimV1.run c4Api c4Data Stage.merged false).writes =
       [WriteCall.create c4Payload]) :=
  ⟨rfl, rfl, C4_merged_no_lookup_creates c4Api c4Data c4Payload rfl rfl⟩

/-- Counterexample to claim C1 as stated: a merged input without lookup is
not idempotent in the imported variant.  `c1ApiFirst` is the remote before
the first call (create succeeds, yielding `c1Rec`); `c1ApiSecond` is the
remote afterwards, holding `c1Rec` under its slug and name while a second
create collides.  The second call still performs no lookup, issues another
create write, and ends failed — not `changed=false` with no write. -/
theorem C1_counterexample :
    getChanged (DcimV1.run c1ApiFirst c1Data Stage.merged false).outcome
      = some true ∧
    (DcimV1.run c1ApiFirst c1Data Stage.merged false).writes =
      [WriteCall.create c1Payload] ∧
    (DcimV1.run c1ApiSecond c1Data Stage.merged false).writes =
      [WriteCall.create c1Payload] ∧
    getFailed (DcimV1.run c1ApiSecond c1Data Stage.merged false).outcome
      = some true :=
  ⟨rfl, rfl, rfl, rfl⟩

/-- Claim C1 (amended) — idempotence of merged holds when the input carries
an explicit lookup that re-finds the written record: if the lookup names a
slug under which the remote returns a record agreeing with the built
payload on name and slug (and, where the raw input supplies them, on
description and sorted tags), the call reports `changed=false` and issues
no write.  Without an explicit lookup, merged re-runs take the create path
again — see the counterexample. -/
theorem C1_merged_idempotent_with_slug_lookup (api : Api) (data : InputData)
    (L : LookupMap) (s : String) (p : Payload) (r : Rec)
    (hL : data.lookup = some L) (hs : L.slug = some s)
    (hb : DcimV1.build_payload api data Stage.merged = Except.ok p)
    (hget : api.getBySlug s = some r)
    (hname : p.name = r.name)
    (hslug : p.slug = some r.slug)
    (hdesc : data.description = none ∨ p.description.getD "" = r.description)
    (htags : data.tags = none ∨ sortNats (p.tags.getD []) = sortNats r.tags) :
    DcimV1.run api data Stage.merged false =
      ⟨Except.ok { changed := false,
                   msg := "No changes required for " ++ r.name ++ ".",
                   manufacturer := some (SerializedRec.record r) },
       [ReadCall.getBySlug s], []⟩ := by
  have hLne : L.isEmptyMap = false := by
    simp [LookupMap.isEmptyMap, hs]
  have hne : lookupFalsy data.lookup = false := by
    rw [hL]
    simpa [lookupFalsy] using hLne
  have hsf : DcimV1.searchFields data Stage.merged = L := by
    unfold DcimV1.searchFields
    simp [hL, lookupFalsy, hLne]
  have hlk : DcimV1.perform_lookup api data Stage.merged =
      (Except.ok (some r), [ReadCall.getBySlug s]) := by
    unfold DcimV1.perform_lookup
    simp [hsf, hLne, hs, hget]
  have hdelta : DcimV1.is_different r p data Stage.merged =
      ⟨none, none, none, none⟩ := by
    unfold DcimV1.is_different DcimV1.computeChanges
    rcases hdesc with hd | hd <;> rcases htags with ht | ht <;>
      simp [hname, hslug, hd, ht]
  unfold DcimV1.run
  rw [hb, hlk]
  unfold DcimV1.ensure_present
  simp [hdelta, Delta.nonempty]

/-- Witness for C1: the second call of the amended scenario — explicit
lookup by the slug `"cisco"` against the remote state `c1ApiSecond` that
already holds the record the first call created — reports no change and
writes nothing. -/
theorem C1_witness :
    c1LkData.lookup = some ⟨none, some "cisco", none, none⟩ ∧
    DcimV1.build_payload c1ApiSecond c1LkData Stage.merged =
      Except.ok c1Payload ∧
    c1ApiSecond.getBySlug "cisco" = some c1Rec ∧
    DcimV1.run c1ApiSecond c1LkData Stage.merged false =
      ⟨Except.ok { changed := false,
                   msg := "No changes required for " ++ c1Rec.name ++ ".",
                   manufacturer := some (SerializedRec.record c1Rec) },
       [ReadCall.getBySlug "cisco"], []⟩ :=
  ⟨rfl, rfl, rfl,
    C1_merged_idempotent_with_slug_lookup c1ApiSecond c1LkData
      ⟨none, some "cisco", none, none⟩ "cisco" c1Payload c1Rec
      rfl rfl rfl rfl rfl rfl (Or.inl rfl) (Or.inl rfl)⟩

/-- Counterexample to claim C8 as stated: dry-run parity breaks when the
remote rejects a write.  On `c8Api` every create raises: the dry merged
run of `c8Data` classifies as changed while the real run classifies as
failed.  On `c8UpdApi` the resolved record's update raises uncaught: the
dry run classifies as changed with a description delta while the real run
escapes with the exception.  On `c8DelApi` the delete raises uncaught,
breaking parity for `absent` the same way. -/
theorem C8_counterexample :
    classify (DcimV1.run c8Api c8Data Stage.merged true) =
      Except.ok (true, false, []) ∧
    classify (DcimV1.run c8Api c8Data Stage.merged false) =
      Except.ok (false, true, []) ∧
    (DcimV1.run c8Api c8Data Stage.merged true).writes = [] ∧
    (DcimV1.run c8Api c8Data Stage.merged false).writes ≠ [] ∧
    classify (DcimV1.run c8UpdApi c8UpdData Stage.merged true) =
      Except.ok (true, false, ["description"]) ∧
    classify (DcimV1.run c8UpdApi c8UpdData Stage.merged false) =
      Except.error "RequestError" ∧
    classify (DcimV1.run c8DelApi c8DelData Stage.absent true) =
      Except.ok (true, false, []) ∧
    classify (DcimV1.run c8DelApi c8DelData Stage.absent false) =
      Except.error "RequestError" :=
  ⟨rfl, rfl, rfl, by decide, rfl, rfl, rfl, rfl⟩

/-- Claim C8 (amended) — dry-run parity modulo write success: a check-mode
run issues zero writes for every input, stage and remote, and whenever the
remote accepts the writes — creates succeed, the update call returns its
boolean, the delete call returns — the check-mode run has the same outcome
classification (changed, failed, delta field names) as the real run
against the same remote state.  (When a write fails remotely, parity
breaks: a rejected create makes the real run report failed, and a
rejected update or delete escapes as an uncaught exception, while the dry
run reported changed in every case — see the counterexample.) -/
theorem C8_dry_run_parity (api : Api) (data : InputData) (state : Stage)
    (b : Bool)
    (hc : ∀ q : Payload, (api.createResult q).isSome = true)
    (hu : api.updateResult = Except.ok b)
    (hd : api.deleteResult = Except.ok ()) :
    classify (DcimV1.run api data state true) =
      classify (DcimV1.run api data state false) ∧
    (DcimV1.run api data state true).writes = [] := by
  unfold DcimV1.run
  cases hb : DcimV1.build_payload api data state with
  | error e => exact ⟨rfl, rfl⟩
  | ok p =>
    rcases hl : DcimV1.perform_lookup api data state with ⟨exc, reads⟩
    cases exc with
    | error e => exact ⟨rfl, rfl⟩
    | ok m =>
      cases state with
      | merged =>
        cases m with
        | none =>
          obtain ⟨cr, hcr⟩ := Option.isSome_iff_exists.mp (hc p)
          constructor
          · simp [DcimV1.ensure_present, classify, Except.map, hcr]
          · simp [DcimV1.ensure_present]
        | some mf =>
          by_cases hne :
              (DcimV1.is_different mf p data Stage.merged).nonempty = true
          · constructor <;>
              simp [DcimV1.ensure_present, classify, Except.map, hne, hu]
          · constructor <;>
              simp [DcimV1.ensure_present, classify, Except.map, hne]
      | override =>
        cases m with
        | none =>
          obtain ⟨cr, hcr⟩ := Option.isSome_iff_exists.mp (hc p)
          constructor
          · simp [DcimV1.overrideOp, DcimV1.ensure_present, classify, Except.map, hcr]
          · simp [DcimV1.overrideOp, DcimV1.ensure_present]
        | some mf =>
          constructor <;> simp [DcimV1.overrideOp, classify, Except.map, hu]
      | absent =>
        cases m with
        | none => exact ⟨rfl, rfl⟩
        | some mf =>
          constructor <;> simp [DcimV1.ensure_absent, classify, Except.map, hd]

/-- Witness for C8: on `c8ApiOk` (creates succeed, update returns its
boolean, delete returns) the merged dry run of `c8Data` matches the real
run's classification and writes nothing. -/
theorem C8_witness :
    classify (DcimV1.run c8ApiOk c8Data Stage.merged true) =
      classify (DcimV1.run c8ApiOk c8Data Stage.merged false) ∧
    (DcimV1.run c8ApiOk c8Data Stage.merged true).writes = [] :=
  C8_dry_run_parity c8ApiOk c8Data Stage.merged true (fun _ => rfl) rfl rfl

end NetboxSpec
